import Mathlib

/-!
Shallow embedding of `upload_to_sheets.py` (repository `alpha-omega-stats`),
covering the backoff computation, the error classification, the retry
harness, PR-record validation, grouping, failing-subset extraction,
sheet-name sanitization, and the clear-then-validate sheet update.

Conventions of the embedding:
* Python machine-independent arithmetic on delays is modelled over `ℚ`.
* `random.uniform(0, 0.1 * delay)` is modelled by an explicit `jitter`
  argument, constrained by hypotheses `0 ≤ jitter ≤ delay / 10` where a
  theorem needs the bound.
* Python's process-salted built-in `hash` on strings is modelled by an
  explicit parameter `h : String → Int`; nothing in the source constrains
  it beyond being a fixed function for the lifetime of one process run.
* Exceptions are modelled by `Except PyError`; `datetime.fromisoformat`
  (standard library, not part of this repository) is modelled by a
  parameter `parseErr : String → Option String` returning `some msg` when
  parsing raises `ValueError msg` and `none` on success.
* Fixed pacing sleeps (`time.sleep(1)` / `time.sleep(2)` inside
  `update_sheet_with_retry`) are not modelled; the backoff sleeps of the
  retry loop are modelled exactly (accumulated in `totalSleep`).
-/

namespace UploadToSheets

/-- Leading-match test on character lists: `subAt p s` is `true` iff `p`
occurs at the very start of `s` (helper for the Python `in` operator). -/
def subAt : List Char → List Char → Bool
  | [], _ => true
  | _ :: _, [] => false
  | a :: as, b :: bs => a == b && subAt as bs

/-- Occurrence test on character lists: `hasSub p s` is `true` iff `p`
occurs contiguously somewhere in `s`. -/
def hasSub (p : List Char) : List Char → Bool
  | [] => subAt p []
  | b :: bs => subAt p (b :: bs) || hasSub p bs

/-- Python's `pat in s` substring test on strings. -/
def strIn (pat s : String) : Bool := hasSub pat.data s.data

/-- ASCII lowering of one character (the only case exercised by the
error strings the script matches on). -/
def lowerChar (c : Char) : Char :=
  if 'A' ≤ c && c ≤ 'Z' then Char.ofNat (c.toNat + 32) else c

/-- Python's `str.lower()` restricted to ASCII. -/
def pyLower (s : String) : String := ⟨s.data.map lowerChar⟩

/-- Python's `str.replace(pat, rep)` (left-to-right, non-overlapping)
for a non-empty pattern `c :: cs`. The `Nat` argument is fuel, always
supplied as the length of the scanned list (each step consumes at least
one character, so the fuel never runs out); it keeps the recursion
structural so that the kernel can evaluate it. -/
def replaceFrom (c : Char) (cs rep : List Char) : Nat → List Char → List Char
  | _, [] => []
  | 0, l => l
  | f + 1, a :: rest =>
    if subAt (c :: cs) (a :: rest) then rep ++ replaceFrom c cs rep f (rest.drop cs.length)
    else a :: replaceFrom c cs rep f rest

/-- Python's `s.replace(pat, rep)` on strings (empty pattern unused by the
script). -/
def pyStrReplace (s pat rep : String) : String :=
  match pat.data with
  | [] => s
  | c :: cs => ⟨replaceFrom c cs rep.data s.data.length s.data⟩

/-- `get_backoff_duration(attempt, base_delay, max_delay)` from
`upload_to_sheets.py`: `delay = min(base_delay * 2**attempt, max_delay)`,
plus a jitter sampled by `random.uniform(0, 0.1 * delay)`; the sampled
value is the explicit argument `jitter`. -/
def get_backoff_duration (attempt : Nat) (jitter base_delay max_delay : ℚ) : ℚ :=
  min (base_delay * 2 ^ attempt) max_delay + jitter

/-- The exception taxonomy distinguished by the script's `except` clauses:
`gspread` API errors (matched on their stringification), the two
not-found exceptions, `ValueError`, and anything else. -/
inductive PyError where
  | apiError (msg : String)
  | spreadsheetNotFound
  | worksheetNotFound
  | valueError (msg : String)
  | otherError (msg : String)
deriving DecidableEq, Repr

/-- `handle_google_api_error(e, attempt, max_retries)`: substring checks on
the lowercased stringified error, in source order (rate limit, backend
5xx, authorization, invalid request, default). Returns
`(should_retry, wait_time)`; `max_retries` only feeds a log line and is
omitted. `jitter` is the sample used by the inner
`get_backoff_duration` call. -/
def handle_google_api_error (msg : String) (attempt : Nat) (jitter : ℚ) : Bool × ℚ :=
  let error_str := pyLower msg
  if strIn "429" error_str || strIn "quota" error_str then
    (true, get_backoff_duration attempt jitter 5 300)
  else if strIn "500" error_str || strIn "502" error_str ||
      strIn "503" error_str || strIn "504" error_str then
    (true, get_backoff_duration attempt jitter 10 300)
  else if strIn "401" error_str || strIn "403" error_str then
    (false, 0)
  else if strIn "400" error_str then
    (false, 0)
  else
    (true, get_backoff_duration attempt jitter 5 300)

/-- Observable outcome of one `retry_with_backoff` call: final state of
the wrapped operation's environment, the returned value or propagated
error (`Except.ok none` models the `return None` after an empty loop),
total backoff slept, and how many times the operation was invoked. -/
structure RetryOut (σ α : Type) where
  state : σ
  result : Except PyError (Option α)
  totalSleep : ℚ
  invocations : Nat

/-- The loop body of `retry_with_backoff`, one constructor case per
remaining loop iteration. `func` is the wrapped zero-argument operation,
modelled as a state transformer so that stateful operations (and
distinct outcomes per invocation) are expressible; `jitters i` is the
jitter sampled if a backoff is computed at attempt `i`. On an
`APIError` the error is classified; a non-retryable class or the last
attempt re-raises, otherwise the wrapper sleeps `wait_time` and loops.
All other exception classes re-raise immediately. -/
def retry_aux {σ α : Type} (func : σ → σ × Except PyError α) (jitters : Nat → ℚ)
    (max_retries : Nat) : Nat → Nat → σ → ℚ → Nat → RetryOut σ α
  | 0, _, st, acc, inv => ⟨st, Except.ok Option.none, acc, inv⟩
  | remaining + 1, attempt, st, acc, inv =>
    match func st with
    | (st', Except.ok v) => ⟨st', Except.ok (some v), acc, inv + 1⟩
    | (st', Except.error (PyError.apiError msg)) =>
      let hr := handle_google_api_error msg attempt (jitters attempt)
      if !hr.1 || attempt == max_retries - 1 then
        ⟨st', Except.error (PyError.apiError msg), acc, inv + 1⟩
      else
        retry_aux func jitters max_retries remaining (attempt + 1) st' (acc + hr.2) (inv + 1)
    | (st', Except.error PyError.spreadsheetNotFound) =>
      ⟨st', Except.error PyError.spreadsheetNotFound, acc, inv + 1⟩
    | (st', Except.error PyError.worksheetNotFound) =>
      ⟨st', Except.error PyError.worksheetNotFound, acc, inv + 1⟩
    | (st', Except.error (PyError.valueError m)) =>
      ⟨st', Except.error (PyError.valueError m), acc, inv + 1⟩
    | (st', Except.error (PyError.otherError m)) =>
      ⟨st', Except.error (PyError.otherError m), acc, inv + 1⟩

/-- `retry_with_backoff(func, max_retries)` from `upload_to_sheets.py`
(the unused `initial_delay` parameter is omitted): run the loop from
attempt 0 with no sleep accumulated and no invocations yet. -/
def retry_with_backoff {σ α : Type} (func : σ → σ × Except PyError α) (jitters : Nat → ℚ)
    (max_retries : Nat) (st0 : σ) : RetryOut σ α :=
  retry_aux func jitters max_retries max_retries 0 st0 0 0

/-- A pure zero-argument operation whose `n`-th invocation yields
`outcomes n`: the state is the invocation counter. -/
def pureCalls {α : Type} (outcomes : Nat → Except PyError α) : Nat → Nat × Except PyError α :=
  fun n => (n + 1, outcomes n)

/-- A Python JSON-ish value, as far as the record fields distinguish
them: strings, ints, `None`, and anything else (tagged). -/
inductive PyVal where
  | pystr (s : String)
  | pyint (n : Int)
  | pynone
  | pyother (tag : String)
deriving DecidableEq, Repr

/-- Python `str(v)` / f-string rendering of a record field. -/
def pyStrOf : PyVal → String
  | PyVal.pystr s => s
  | PyVal.pyint n => toString n
  | PyVal.pynone => "None"
  | PyVal.pyother t => t

/-- `isinstance(v, str)`. -/
def isStr : PyVal → Bool
  | PyVal.pystr _ => true
  | _ => false

/-- `isinstance(v, int)`. -/
def isInt : PyVal → Bool
  | PyVal.pyint _ => true
  | _ => false

/-- `isinstance(v, type(None))`. -/
def isNoneVal : PyVal → Bool
  | PyVal.pynone => true
  | _ => false

/-- Python's `repr` of the value's type, used in validation messages. -/
def typeName : PyVal → String
  | PyVal.pystr _ => "<class 'str'>"
  | PyVal.pyint _ => "<class 'int'>"
  | PyVal.pynone => "<class 'NoneType'>"
  | PyVal.pyother t => "<class '" ++ t ++ "'>"

/-- A raw PR record: a Python dict, modelled as an association list. -/
def RawRecord : Type := List (String × PyVal)

/-- Dict lookup (`field in pr` / `pr[field]` combined): first binding of
the key, if any. -/
def dictGet : RawRecord → String → Option PyVal
  | [], _ => Option.none
  | (k, v) :: rest, f => if k == f then some v else dictGet rest f

/-- `pr[field]` on a path where the key is known to be present; absent
keys (which would raise `KeyError`, a path the script never reaches) are
mapped to a tag value. -/
def pyGet (pr : RawRecord) (f : String) : PyVal :=
  (dictGet pr f).getD (PyVal.pyother "KeyError")

/-- The `required_fields` schema of `validate_pr_data`, in source order:
field name, accepted-type test (a disjunction for type tuples), and the
Python rendering of the accepted type(s) for the error message. -/
def required_fields : List (String × (PyVal → Bool) × String) :=
  [("title", isStr, "<class 'str'>"),
   ("repository", isStr, "<class 'str'>"),
   ("number", fun v => isInt v || isStr v, "(<class 'int'>, <class 'str'>)"),
   ("state", isStr, "<class 'str'>"),
   ("createdAt", isStr, "<class 'str'>"),
   ("updatedAt", isStr, "<class 'str'>"),
   ("checkStatus", fun v => isStr v || isNoneVal v, "(<class 'str'>, <class 'NoneType'>)")]

/-- The field loop of `validate_pr_data`: for each schema entry in order,
a missing field is reported first; a present field is then type-checked
(accepting any member of a type set); the first failure stops the loop. -/
def checkFields (pr : RawRecord) : List (String × (PyVal → Bool) × String) → Option String
  | [] => Option.none
  | (f, ty, desc) :: rest =>
    match dictGet pr f with
    | Option.none => some ("Missing required field: " ++ f)
    | some v =>
      if ty v then checkFields pr rest
      else some ("Invalid type for " ++ f ++ ": expected " ++ desc ++ ", got " ++ typeName v)

/-- The date-validation tail of `validate_pr_data`, split on the two
`datetime.fromisoformat` results (first failure wins, as in the single
`try` block of the source). -/
def dateCheckResult (r1 r2 : Option String) : Bool × Option String :=
  match r1 with
  | some m => (false, some ("Invalid date format: " ++ m))
  | Option.none =>
    match r2 with
    | some m => (false, some ("Invalid date format: " ++ m))
    | Option.none => (true, Option.none)

/-- `validate_pr_data(pr)` from `upload_to_sheets.py`: field presence and
type checks in schema order, then the state-enum check, then the two
timestamp parses (each on the string with `"Z"` replaced by `"+00:00"`).
Returns `(is_valid, error_message)`. -/
def validate_pr_data (parseErr : String → Option String) (pr : RawRecord) : Bool × Option String :=
  match checkFields pr required_fields with
  | some e => (false, some e)
  | Option.none =>
    if ([PyVal.pystr "OPEN", PyVal.pystr "CLOSED", PyVal.pystr "MERGED"].contains
        (pyGet pr "state")) = false then
      (false, some ("Invalid state value: " ++ pyStrOf (pyGet pr "state")))
    else
      dateCheckResult
        (parseErr (pyStrReplace (pyStrOf (pyGet pr "createdAt")) "Z" "+00:00"))
        (parseErr (pyStrReplace (pyStrOf (pyGet pr "updatedAt")) "Z" "+00:00"))

/-- Typed shadow of a record that passed validation (the dict fields the
later stages read). `number` stays a `PyVal` because the schema accepts
both ints and numeral strings. -/
structure ValidPR where
  title : String
  repository : String
  number : PyVal
  state : String
  createdAt : String
  updatedAt : String
  checkStatus : Option String
deriving DecidableEq, Repr

/-- Projection of a validated dict onto its typed shadow. -/
def toValidPR (pr : RawRecord) : ValidPR :=
  { title := pyStrOf (pyGet pr "title")
    repository := pyStrOf (pyGet pr "repository")
    number := pyGet pr "number"
    state := pyStrOf (pyGet pr "state")
    createdAt := pyStrOf (pyGet pr "createdAt")
    updatedAt := pyStrOf (pyGet pr "updatedAt")
    checkStatus :=
      match pyGet pr "checkStatus" with
      | PyVal.pystr s => some s
      | _ => Option.none }

/-- One entry of `title_groups` in `group_prs_by_title`: the title, the
member records in arrival order, and the three per-state counters. -/
structure Group where
  title : String
  prs : List ValidPR
  open_ : Nat
  closed : Nat
  merged : Nat
deriving DecidableEq, Repr

/-- The fresh group created when a title is first seen. -/
def freshGroup (t : String) : Group := ⟨t, [], 0, 0, 0⟩

/-- The body of the grouping loop once the group exists: append the
record and bump the counter matching its state (`if`/`elif`/`elif`;
other states bump none). -/
def updateGroup (g : Group) (pr : ValidPR) : Group :=
  let g1 := { g with prs := g.prs ++ [pr] }
  if pr.state == "OPEN" then { g1 with open_ := g1.open_ + 1 }
  else if pr.state == "CLOSED" then { g1 with closed := g1.closed + 1 }
  else if pr.state == "MERGED" then { g1 with merged := g1.merged + 1 }
  else g1

/-- One step of `group_prs_by_title` on the ordered dict of groups:
update the first group with the record's title, or append a fresh group
updated with the record (dicts preserve insertion order). -/
def insertPR : List Group → ValidPR → List Group
  | [], pr => [updateGroup (freshGroup pr.title) pr]
  | g :: gs, pr =>
    if g.title == pr.title then updateGroup g pr :: gs else g :: insertPR gs pr

/-- `group_prs_by_title(prs)` from `upload_to_sheets.py`:
`list(title_groups.values())` after folding the records into the
insertion-ordered dict. -/
def group_prs_by_title (prs : List ValidPR) : List Group :=
  prs.foldl insertPR []

/-- One element of the `failing_prs` comprehension: title, synthesized
pull-request URL, and the record's raw `checkStatus`. -/
structure FailingEntry where
  title : String
  url : String
  status : Option String
deriving DecidableEq, Repr

/-- The entry built for one failing record:
`https://github.com/{repository}/pull/{number}`. -/
def mkFailingEntry (pr : ValidPR) : FailingEntry :=
  { title := pr.title
    url := "https://github.com/" ++ pr.repository ++ "/pull/" ++ pyStrOf pr.number
    status := pr.checkStatus }

/-- The `failing_prs` list comprehension of `process_consolidated_data`:
records with `state == "OPEN"` and `checkStatus in ["ERROR", "FAILURE"]`. -/
def failing_from (valid : List ValidPR) : List FailingEntry :=
  (valid.filter fun pr =>
      pr.state == "OPEN" && (pr.checkStatus == some "ERROR" || pr.checkStatus == some "FAILURE")).map
    mkFailingEntry

/-- Result triple of `process_consolidated_data` (file-level read errors,
which only produce `(None, None, [msg])`, are outside the model: the
input is the already-decoded list of records). -/
structure ProcessOut where
  grouped : Option (List Group)
  failing : Option (List FailingEntry)
  errors : List String
deriving DecidableEq, Repr

/-- The per-record validation step of `process_consolidated_data`:
valid records are collected, invalid ones contribute
`"PR at index {i}: {error}"`. -/
def validateStep (parseErr : String → Option String) (acc : List String × List RawRecord)
    (ipr : Nat × RawRecord) : List String × List RawRecord :=
  let r := validate_pr_data parseErr ipr.2
  if r.1 then (acc.1, acc.2 ++ [ipr.2])
  else (acc.1 ++ ["PR at index " ++ toString ipr.1 ++ ": " ++ r.2.getD "None"], acc.2)

/-- `process_consolidated_data` from `upload_to_sheets.py`, from the
decoded record list onward: validate each record with its index, fail
the run when no record is valid, otherwise group the valid records by
title and extract the failing subset. -/
def process_consolidated_data (parseErr : String → Option String)
    (prs : List RawRecord) : ProcessOut :=
  let ev := prs.enum.foldl (validateStep parseErr) ([], [])
  if ev.2.isEmpty then
    ⟨Option.none, Option.none, ["No valid PRs found in consolidated data."]⟩
  else
    ⟨some (group_prs_by_title (ev.2.map toValidPR)),
     some (failing_from (ev.2.map toValidPR)),
     ev.1⟩

/-- The character class stripped by
`re.sub(r'[\[\]\\*?/:]', '', title)` in `sanitize_sheet_name`. -/
def strippedChars : List Char := ['[', ']', '\\', '*', '?', '/', ':']

/-- The last-eight-character slice `str(hash(title))[-8:]` used as the
disambiguating suffix; `h` is the run's string hash (see module header). -/
def hash_suffix_of (h : String → Int) (title : String) : List Char :=
  let ds := (toString (h title)).data
  ds.drop (ds.length - 8)

/-- `sanitize_sheet_name(title, max_length)` from `upload_to_sheets.py`:
strip the invalid characters, replace spaces with underscores, and when
the result is longer than `max_length` keep its first `max_length - 9`
characters followed by `'_'` and the hash-derived suffix. -/
def sanitize_sheet_name (h : String → Int) (title : String) (max_length : Nat) : String :=
  let s1 : String := ⟨title.data.filter fun c => (strippedChars.contains c) = false⟩
  let sanitized := pyStrReplace s1 " " "_"
  if max_length < sanitized.data.length then
    ⟨sanitized.data.take (max_length - 9) ++ ('_' :: hash_suffix_of h title)⟩
  else sanitized

/-- The sheet names computed in the summary loop of the driver
(`sheet_name = sanitize_sheet_name(plugin)` over the plugin keys, which
are the group titles in insertion order). -/
def summary_sheet_names (h : String → Int) (groups : List Group) : List String :=
  groups.map fun g => sanitize_sheet_name h g.title 100

/-- The sheet names computed in the later per-title upload loop of the
driver (`sheet_name = sanitize_sheet_name(title)` over `grouped_prs`). -/
def per_title_sheet_names (h : String → Int) (groups : List Group) : List String :=
  groups.map fun g => sanitize_sheet_name h g.title 100

/-- Worksheet contents, as far as the script observes them: the rows
last written (cleared means no rows). -/
structure SheetState where
  rows : List (List PyVal)
deriving DecidableEq, Repr

/-- The `data` argument of `update_sheet_with_retry`: either a Python
list/tuple of rows, or some value of any other type (which fails the
`isinstance(data, (list, tuple))` check whatever it is). -/
inductive SheetData where
  | items (rows : List (List PyVal))
  | nonSeq
deriving DecidableEq, Repr

/-- The `not data or not isinstance(data, (list, tuple))` validation
condition inside `update()`. -/
def invalidSheetData : SheetData → Bool
  | SheetData.items rows => rows.isEmpty
  | SheetData.nonSeq => true

/-- The inner `update()` closure of `update_sheet_with_retry`: first
`sheet.clear()` (the sheet loses its rows in every branch), then the
data validation — raising `ValueError` on empty or non-sequence data,
with the sheet already cleared — and only then the write of the new
rows at `A1`. -/
def update_once (data : SheetData) (_st : SheetState) : SheetState × Except PyError Unit :=
  match data with
  | SheetData.items rows =>
    if rows.isEmpty then
      (⟨[]⟩, Except.error (PyError.valueError "Invalid data format. Expected non-empty list or tuple."))
    else (⟨rows⟩, Except.ok ())
  | SheetData.nonSeq =>
    (⟨[]⟩, Except.error (PyError.valueError "Invalid data format. Expected non-empty list or tuple."))

/-- `update_sheet_with_retry(sheet, data)`: the inner update wrapped by
`retry_with_backoff` with its default `max_retries = 5`. -/
def update_sheet_with_retry (jitters : Nat → ℚ) (st : SheetState) (data : SheetData) :
    RetryOut SheetState Unit :=
  retry_with_backoff (update_once data) jitters 5 st

/-- `FAILING_PRS_ERROR = sys.argv[2].lower() == 'true'`: the parse of the
second positional CLI argument. -/
def parse_failing_flag (arg : String) : Bool := pyLower arg == "true"

/-- The failing-subset list as the driver obtains it: the flag is parsed
from `argv[2]` exactly as in the source, and — as in the source — the
extraction in `process_consolidated_data` never consults it. -/
def main_failing_prs (parseErr : String → Option String) (argv2 : String)
    (prs : List RawRecord) : Option (List FailingEntry) :=
  let failing_flag := parse_failing_flag argv2
  let _ := failing_flag
  (process_consolidated_data parseErr prs).failing

/-- The single-record scenario input of the specification:
`{title:"A", repository:"o/r", number:1, state:"OPEN",
createdAt:"2024-01-01T00:00:00Z", updatedAt:"2024-01-02T00:00:00Z",
checkStatus:"FAILURE"}`. -/
def recA : RawRecord :=
  [("title", PyVal.pystr "A"), ("repository", PyVal.pystr "o/r"),
   ("number", PyVal.pyint 1), ("state", PyVal.pystr "OPEN"),
   ("createdAt", PyVal.pystr "2024-01-01T00:00:00Z"),
   ("updatedAt", PyVal.pystr "2024-01-02T00:00:00Z"),
   ("checkStatus", PyVal.pystr "FAILURE")]

/-- Tally of the members of `l` in state `s` (specification-side helper
for stating counter correctness). -/
def countState (s : String) (l : List ValidPR) : Nat :=
  (l.filter fun p => p.state == s).length

/-- The cohort the grouping is expected to build for title `t`: the
records with that title in input order, with counters tallied from them
(specification-side helper; the grouping code is `group_prs_by_title`). -/
def canonGroup (prs : List ValidPR) (t : String) : Group :=
  ⟨t, prs.filter (fun p => p.title == t),
   countState "OPEN" (prs.filter fun p => p.title == t),
   countState "CLOSED" (prs.filter fun p => p.title == t),
   countState "MERGED" (prs.filter fun p => p.title == t)⟩

/-- The group stored under title `t`, if any (proof-side view of the
`title_groups` dict). -/
def findTitle (gs : List Group) (t : String) : Option Group :=
  gs.find? fun g => g.title == t

/-- Whether field `f` of the record is present and passes the accepted
type test `ty` (proof-side view of one iteration of the validation
loop). -/
def fieldOk (pr : RawRecord) (f : String) (ty : PyVal → Bool) : Bool :=
  match dictGet pr f with
  | some v => ty v
  | Option.none => false

/-- Whether every schema field of the record is present and well-typed. -/
def allFieldsOk (pr : RawRecord) : Bool :=
  required_fields.all fun s => fieldOk pr s.1 s.2.1

/-! ## Theorems -/

/-- C1: with the default `base_delay = 5`, `max_delay = 300`, the backoff
for attempt `a` equals `min(5 * 2 ^ a, 300)` plus the jitter (drawn from
`[0, 10%]` of that clamped value), never exceeds `300 * 1.1`, and — as
long as the clamped delay is below the cap — is non-decreasing from one
attempt to the next, whatever jitters are drawn. -/
theorem backoff_formula_monotone_bounded (a : Nat) (j j' : ℚ)
    (hj0 : 0 ≤ j) (hj : j ≤ min ((5 : ℚ) * 2 ^ a) 300 / 10)
    (hj'0 : 0 ≤ j') (_hj'le : j' ≤ min ((5 : ℚ) * 2 ^ (a + 1)) 300 / 10) :
    get_backoff_duration a j 5 300 = min ((5 : ℚ) * 2 ^ a) 300 + j
    ∧ get_backoff_duration a j 5 300 ≤ 300 * (11 / 10)
    ∧ (min ((5 : ℚ) * 2 ^ a) 300 < 300 →
        get_backoff_duration a j 5 300 ≤ get_backoff_duration (a + 1) j' 5 300) := by
  refine ⟨rfl, ?_, ?_⟩
  · have h1 : min ((5 : ℚ) * 2 ^ a) 300 ≤ 300 := min_le_right _ _
    unfold get_backoff_duration
    linarith
  · intro hlt
    have hx : (5 : ℚ) * 2 ^ a < 300 := by
      by_contra hcon
      push_neg at hcon
      rw [min_eq_right hcon] at hlt
      exact lt_irrefl _ hlt
    have ha : a ≤ 5 := by
      by_contra hcon
      push_neg at hcon
      have h6 : (2 : ℚ) ^ 6 ≤ 2 ^ a := by
        apply pow_le_pow_right₀ (by norm_num)
        omega
      norm_num at h6
      nlinarith
    have hb : (2 : ℚ) ^ a ≤ 32 := by
      calc (2 : ℚ) ^ a ≤ 2 ^ 5 := pow_le_pow_right₀ (by norm_num) ha
        _ = 32 := by norm_num
    have hpos : (0 : ℚ) < 2 ^ a := by positivity
    have hjx : j ≤ (5 : ℚ) * 2 ^ a / 10 := by rwa [min_eq_left hx.le] at hj
    have key : (5 : ℚ) * 2 ^ a + j ≤ min ((5 : ℚ) * 2 ^ (a + 1)) 300 := by
      apply le_min
      · rw [pow_succ]
        nlinarith
      · nlinarith
    unfold get_backoff_duration
    rw [min_eq_left hx.le]
    linarith

/-- Witness for C1 at attempt 0 with zero jitters. -/
theorem backoff_formula_monotone_bounded_witness :
    (0 : ℚ) ≤ 0 ∧ (0 : ℚ) ≤ min ((5 : ℚ) * 2 ^ 0) 300 / 10
    ∧ (get_backoff_duration 0 0 5 300 = min ((5 : ℚ) * 2 ^ 0) 300 + 0
      ∧ get_backoff_duration 0 0 5 300 ≤ 300 * (11 / 10)
      ∧ (min ((5 : ℚ) * 2 ^ 0) 300 < 300 →
          get_backoff_duration 0 0 5 300 ≤ get_backoff_duration 1 0 5 300)) :=
  ⟨le_refl 0, by norm_num,
   backoff_formula_monotone_bounded 0 0 0 (le_refl 0) (by norm_num) (le_refl 0) (by norm_num)⟩

/-- The retry loop never invokes the wrapped operation more often than it
has remaining iterations. -/
theorem retry_aux_invocations_le {σ α : Type} (func : σ → σ × Except PyError α)
    (jitters : Nat → ℚ) (max_retries : Nat) :
    ∀ (remaining attempt : Nat) (st : σ) (acc : ℚ) (inv : Nat),
      (retry_aux func jitters max_retries remaining attempt st acc inv).invocations
        ≤ inv + remaining := by
  intro remaining
  induction remaining with
  | zero =>
    intro attempt st acc inv
    simp [retry_aux]
  | succ r ih =>
    intro attempt st acc inv
    rcases hf : func st with ⟨st', res⟩
    rcases res with e | v
    · rcases e with msg | _ | _ | m | m
      · simp only [retry_aux, hf]
        split
        · simp
          try omega
        · calc (retry_aux func jitters max_retries r (attempt + 1) st'
                  (acc + (handle_google_api_error msg attempt (jitters attempt)).2)
                  (inv + 1)).invocations
              ≤ (inv + 1) + r := ih _ _ _ _
            _ ≤ inv + (r + 1) := by omega
      all_goals
        simp [retry_aux, hf]
        try omega
    · simp [retry_aux, hf]
      try omega

/-- C2: for a zero-argument operation wrapped with `max_retries = 5`:
(1) it is invoked at most 5 times; (2) a first-call success is returned
at once after exactly one invocation and no sleep; (3) two rate-limited
failures followed by a success yield the success result after three
invocations, with total sleep exactly the sum of the two computed
backoffs; (4) five rate-limited failures exhaust the attempts and the
last error is propagated after sleeping the first four backoffs (no
sleep is inserted at the final attempt). -/
theorem retry_with_backoff_policy {α : Type} (outcomes : Nat → Except PyError α)
    (jitters : Nat → ℚ) :
    (retry_with_backoff (pureCalls outcomes) jitters 5 0).invocations ≤ 5
    ∧ (∀ v : α, outcomes 0 = Except.ok v →
        retry_with_backoff (pureCalls outcomes) jitters 5 0 = ⟨1, Except.ok (some v), 0, 1⟩)
    ∧ (∀ (m0 m1 : String) (v : α),
        outcomes 0 = Except.error (PyError.apiError m0) →
        (strIn "429" (pyLower m0) || strIn "quota" (pyLower m0)) = true →
        outcomes 1 = Except.error (PyError.apiError m1) →
        (strIn "429" (pyLower m1) || strIn "quota" (pyLower m1)) = true →
        outcomes 2 = Except.ok v →
        retry_with_backoff (pureCalls outcomes) jitters 5 0 =
          ⟨3, Except.ok (some v),
           get_backoff_duration 0 (jitters 0) 5 300 + get_backoff_duration 1 (jitters 1) 5 300,
           3⟩)
    ∧ (∀ m : Nat → String,
        (∀ i, i < 5 → outcomes i = Except.error (PyError.apiError (m i)) ∧
          (strIn "429" (pyLower (m i)) || strIn "quota" (pyLower (m i))) = true) →
        retry_with_backoff (pureCalls outcomes) jitters 5 0 =
          ⟨5, Except.error (PyError.apiError (m 4)),
           get_backoff_duration 0 (jitters 0) 5 300 + get_backoff_duration 1 (jitters 1) 5 300
             + get_backoff_duration 2 (jitters 2) 5 300 + get_backoff_duration 3 (jitters 3) 5 300,
           5⟩) := by
  refine ⟨?_, ?_, ?_, ?_⟩
  · exact retry_aux_invocations_le (pureCalls outcomes) jitters 5 5 0 0 0 0
  · intro v h0
    unfold retry_with_backoff
    simp [retry_aux, pureCalls, h0]
  · intro m0 m1 v h0 hr0 h1 hr1 h2
    unfold retry_with_backoff
    simp [retry_aux, pureCalls, handle_google_api_error, h0, h1, h2, hr0, hr1]
  · intro m hall
    have e0 := (hall 0 (by norm_num)).1
    have r0 := (hall 0 (by norm_num)).2
    have e1 := (hall 1 (by norm_num)).1
    have r1 := (hall 1 (by norm_num)).2
    have e2 := (hall 2 (by norm_num)).1
    have r2 := (hall 2 (by norm_num)).2
    have e3 := (hall 3 (by norm_num)).1
    have r3 := (hall 3 (by norm_num)).2
    have e4 := (hall 4 (by norm_num)).1
    have r4 := (hall 4 (by norm_num)).2
    unfold retry_with_backoff
    simp [retry_aux, pureCalls, handle_google_api_error, e0, e1, e2, e3, e4, r0, r1, r2, r3, r4]

/-- Witness for C2: two simulated 429 failures then the value 42; the
wrapper returns 42 after three invocations, sleeping exactly the two
computed backoffs. -/
theorem retry_with_backoff_policy_witness :
    retry_with_backoff
        (pureCalls fun n =>
          if n < 2 then Except.error (PyError.apiError "HTTP 429: rate limit")
          else Except.ok (42 : Nat))
        (fun _ => 0) 5 0 =
      ⟨3, Except.ok (some 42),
       get_backoff_duration 0 0 5 300 + get_backoff_duration 1 0 5 300, 3⟩ :=
  (retry_with_backoff_policy
      (fun n =>
        if n < 2 then Except.error (PyError.apiError "HTTP 429: rate limit")
        else Except.ok (42 : Nat))
      (fun _ => 0)).2.2.1
    "HTTP 429: rate limit" "HTTP 429: rate limit" 42 rfl (by decide) rfl (by decide) rfl

/-- C3: when the first invocation fails with an error whose
classification by `handle_google_api_error` is non-retryable — which per
the source happens exactly for stringified errors mentioning 401, 403 or
400 without any rate-limit or backend-5xx marker — the wrapper raises
that error at once: one invocation, zero backoff sleep. -/
theorem nonretryable_fails_immediately {α : Type} (outcomes : Nat → Except PyError α)
    (jitters : Nat → ℚ) (max_retries : Nat) (msg : String)
    (hmr : 1 ≤ max_retries)
    (h0 : outcomes 0 = Except.error (PyError.apiError msg))
    (hcls : (handle_google_api_error msg 0 (jitters 0)).1 = false) :
    retry_with_backoff (pureCalls outcomes) jitters max_retries 0 =
      ⟨1, Except.error (PyError.apiError msg), 0, 1⟩ := by
  obtain ⟨r, rfl⟩ : ∃ r, max_retries = r + 1 := ⟨max_retries - 1, by omega⟩
  unfold retry_with_backoff
  simp [retry_aux, pureCalls, h0, hcls]

/-- Witness for C3: a simulated 401 is classified non-retryable and the
wrapper fails after exactly one invocation with no sleep. -/
theorem nonretryable_fails_immediately_witness :
    retry_with_backoff
        (pureCalls fun _ => (Except.error (PyError.apiError "HTTP 401: Unauthorized") :
          Except PyError Unit))
        (fun _ => 0) 5 0 =
      ⟨1, Except.error (PyError.apiError "HTTP 401: Unauthorized"), 0, 1⟩ :=
  nonretryable_fails_immediately
    (fun _ => Except.error (PyError.apiError "HTTP 401: Unauthorized"))
    (fun _ => 0) 5 "HTTP 401: Unauthorized" (by norm_num) rfl (by decide)

/-- Updating a group never changes its title. -/
theorem updateGroup_title (g : Group) (pr : ValidPR) : (updateGroup g pr).title = g.title := by
  unfold updateGroup
  split
  · rfl
  split
  · rfl
  split <;> rfl

/-- Inserting a record whose title already has a group leaves the title
list unchanged. -/
theorem insertPR_titles_mem (gs : List Group) (pr : ValidPR)
    (h : pr.title ∈ gs.map Group.title) :
    (insertPR gs pr).map Group.title = gs.map Group.title := by
  induction gs with
  | nil => simp at h
  | cons g rest ih =>
    by_cases hgt : g.title = pr.title
    · simp [insertPR, hgt, updateGroup_title]
    · have h2 : pr.title ∈ rest.map Group.title := by
        rcases List.mem_map.mp h with ⟨g', hg', he⟩
        rcases List.mem_cons.mp hg' with h1 | h1
        · exact absurd (h1 ▸ he) hgt
        · exact List.mem_map.mpr ⟨g', h1, he⟩
      have hb : (g.title == pr.title) = false := by
        simp [hgt]
      simp [insertPR, hb, ih h2]

/-- Inserting a record with a fresh title appends that title. -/
theorem insertPR_titles_new (gs : List Group) (pr : ValidPR)
    (h : pr.title ∉ gs.map Group.title) :
    (insertPR gs pr).map Group.title = gs.map Group.title ++ [pr.title] := by
  induction gs with
  | nil => simp [insertPR, updateGroup_title, freshGroup]
  | cons g rest ih =>
    have hgt : g.title ≠ pr.title := by
      intro he
      exact h (by simp [he])
    have hb : (g.title == pr.title) = false := by simp [hgt]
    have h2 : pr.title ∉ rest.map Group.title := fun hm => h (by simp [hm])
    simp [insertPR, hb, ih h2]


/-- After an insertion, looking up the inserted record's title finds the
updated (or freshly created) group. -/
theorem findTitle_insert_same (gs : List Group) (pr : ValidPR) :
    findTitle (insertPR gs pr) pr.title =
      some (updateGroup ((findTitle gs pr.title).getD (freshGroup pr.title)) pr) := by
  induction gs with
  | nil =>
    simp [insertPR, findTitle, List.find?, updateGroup_title, freshGroup]
  | cons g rest ih =>
    by_cases hgt : g.title = pr.title
    · have hb : (g.title == pr.title) = true := by simp [hgt]
      simp [insertPR, hb, findTitle, List.find?, updateGroup_title, hgt]
    · have hb : (g.title == pr.title) = false := by simp [hgt]
      simp only [insertPR, hb]
      simp only [findTitle, List.find?] at ih ⊢
      simp [hb, ih]

/-- An insertion does not disturb lookups of other titles. -/
theorem findTitle_insert_other (gs : List Group) (pr : ValidPR) (t : String)
    (hne : t ≠ pr.title) :
    findTitle (insertPR gs pr) t = findTitle gs t := by
  induction gs with
  | nil =>
    have h1 : (updateGroup (freshGroup pr.title) pr).title = pr.title := updateGroup_title _ _
    have h2 : (pr.title == t) = false := by simp [Ne.symm hne]
    simp [insertPR, findTitle, List.find?, h1, h2]
  | cons g rest ih =>
    by_cases hgt : g.title = pr.title
    · have hb : (g.title == pr.title) = true := by simp [hgt]
      have hb2 : ((updateGroup g pr).title == t) = false := by
        simp [updateGroup_title, hgt, Ne.symm hne]
      have hb3 : (g.title == t) = false := by simp [hgt, Ne.symm hne]
      simp [insertPR, hb, findTitle, List.find?, hb2, hb3]
    · have hb : (g.title == pr.title) = false := by simp [hgt]
      by_cases hg2 : g.title = t
      · simp [insertPR, hb, findTitle, List.find?, hg2, hne]
      · have hb4 : (g.title == t) = false := by simp [hg2]
        simp only [insertPR, hb]
        simp only [findTitle] at ih ⊢
        simp [List.find?, hb4, ih]

/-- The grouping fold processes an appended record last. -/
theorem group_fold_append (xs : List ValidPR) (pr : ValidPR) :
    group_prs_by_title (xs ++ [pr]) = insertPR (group_prs_by_title xs) pr := by
  unfold group_prs_by_title
  rw [List.foldl_append]
  rfl


/-- Updating the canonical cohort for `t` with a record of title `t`
yields the canonical cohort of the extended input. -/
theorem updateGroup_canon (xs : List ValidPR) (pr : ValidPR) (t : String) (ht : pr.title = t) :
    updateGroup (canonGroup xs t) pr = canonGroup (xs ++ [pr]) t := by
  have hket : (pr.title == t) = true := by simp [ht]
  have hfil : (xs ++ [pr]).filter (fun p => p.title == t)
      = xs.filter (fun p => p.title == t) ++ [pr] := by
    simp [List.filter_append, hket]
  by_cases hO : pr.state = "OPEN"
  · simp [updateGroup, canonGroup, countState, hfil, List.filter_append, hO]
  · by_cases hC : pr.state = "CLOSED"
    · simp [updateGroup, canonGroup, countState, hfil, List.filter_append, hC]
    · by_cases hM : pr.state = "MERGED"
      · simp [updateGroup, canonGroup, countState, hfil, List.filter_append, hM]
      · simp [updateGroup, canonGroup, countState, hfil, List.filter_append, hO, hC, hM]

/-- A record of a different title leaves the canonical cohort for `t`
unchanged. -/
theorem canon_append_other (xs : List ValidPR) (pr : ValidPR) (t : String)
    (ht : (pr.title == t) = false) :
    canonGroup (xs ++ [pr]) t = canonGroup xs t := by
  simp [canonGroup, List.filter_append, ht]

/-- Characterization of `group_prs_by_title`: the group stored under `t`
is exactly the canonical cohort of `t`, present iff some input record
bears the title. -/
theorem findTitle_grouped (prs : List ValidPR) (t : String) :
    findTitle (group_prs_by_title prs) t =
      if (prs.any fun p => p.title == t) = true then some (canonGroup prs t)
      else Option.none := by
  induction prs using List.reverseRecOn with
  | nil => simp [group_prs_by_title, findTitle, List.find?]
  | append_singleton xs pr ih =>
    rw [group_fold_append]
    by_cases ht : t = pr.title
    · subst ht
      rw [findTitle_insert_same, ih]
      by_cases hxs : (xs.any fun p => p.title == pr.title) = true
      · rw [if_pos hxs, Option.getD_some]
        rw [updateGroup_canon xs pr pr.title rfl]
        rw [if_pos]
        simp [List.any_append]
      · rw [if_neg hxs, Option.getD_none]
        have hfil : xs.filter (fun p => p.title == pr.title) = [] := by
          rw [List.filter_eq_nil_iff]
          intro p hp
          intro hc
          exact hxs (List.any_eq_true.mpr ⟨p, hp, hc⟩)
        have hcan : canonGroup (xs ++ [pr]) pr.title = updateGroup (freshGroup pr.title) pr := by
          have hfil2 : (xs ++ [pr]).filter (fun p => p.title == pr.title) = [pr] := by
            simp [List.filter_append, hfil]
          by_cases hO : pr.state = "OPEN"
          · simp [canonGroup, updateGroup, freshGroup, countState, hfil2, hO]
          · by_cases hC : pr.state = "CLOSED"
            · simp [canonGroup, updateGroup, freshGroup, countState, hfil2, hC]
            · by_cases hM : pr.state = "MERGED"
              · simp [canonGroup, updateGroup, freshGroup, countState, hfil2, hM]
              · simp [canonGroup, updateGroup, freshGroup, countState, hfil2, hO, hC, hM]
        rw [if_pos]
        · rw [hcan]
        · simp [List.any_append]
    · rw [findTitle_insert_other _ _ _ ht, ih]
      have hbt : (pr.title == t) = false := by simp [Ne.symm ht]
      by_cases hxs : (xs.any fun p => p.title == t) = true
      · rw [if_pos hxs, if_pos]
        · rw [canon_append_other _ _ _ hbt]
        · simp [List.any_append, hxs]
      · rw [if_neg hxs, if_neg]
        simp [List.any_append, hbt]
        simpa using hxs


/-- The produced cohorts have pairwise distinct titles. -/
theorem grouped_titles_nodup (prs : List ValidPR) :
    ((group_prs_by_title prs).map Group.title).Nodup := by
  induction prs using List.reverseRecOn with
  | nil => simp [group_prs_by_title]
  | append_singleton xs pr ih =>
    rw [group_fold_append]
    by_cases hm : pr.title ∈ (group_prs_by_title xs).map Group.title
    · rw [insertPR_titles_mem _ _ hm]
      exact ih
    · rw [insertPR_titles_new _ _ hm]
      simp [List.nodup_append, ih, hm]

/-- With distinct titles, membership in the group list coincides with a
successful title lookup. -/
theorem mem_findTitle (gs : List Group) (hnd : (gs.map Group.title).Nodup)
    (g : Group) (hg : g ∈ gs) : findTitle gs g.title = some g := by
  induction gs with
  | nil => simp at hg
  | cons a rest ih =>
    have hnd2 : a.title ∉ rest.map Group.title ∧ (rest.map Group.title).Nodup :=
      List.nodup_cons.mp (by simpa using hnd)
    rcases List.mem_cons.mp hg with h1 | h1
    · subst h1
      simp [findTitle, List.find?]
    · have hne : a.title ≠ g.title := by
        intro he
        exact hnd2.1 (he ▸ List.mem_map.mpr ⟨g, h1, rfl⟩)
      have hb : (a.title == g.title) = false := by simp [hne]
      simp only [findTitle, List.find?, hb]
      exact ih hnd2.2 h1


/-- The three state tallies sum to the number of members whose state is
one of the three recognized values. -/
theorem countState_trio (l : List ValidPR) :
    countState "OPEN" l + countState "CLOSED" l + countState "MERGED" l =
      (l.filter fun p =>
        p.state == "OPEN" || p.state == "CLOSED" || p.state == "MERGED").length := by
  induction l with
  | nil => simp [countState]
  | cons p l ih =>
    by_cases hO : p.state = "OPEN"
    · simp [countState, List.filter_cons, hO] at ih ⊢
      omega
    · by_cases hC : p.state = "CLOSED"
      · simp [countState, List.filter_cons, hC] at ih ⊢
        omega
      · by_cases hM : p.state = "MERGED"
        · simp [countState, List.filter_cons, hM] at ih ⊢
          omega
        · simp [countState, List.filter_cons, hO, hC, hM] at ih ⊢
          omega

/-- C4: grouping is a partition. The cohort titles are pairwise
distinct; every input record has a cohort bearing its title; each
cohort's member list is exactly the input records with its title (in
input order), each counter equals the tally of members in that state,
the three counters sum to the number of members whose state is one of
OPEN/CLOSED/MERGED (a state outside the three increments none), and
when every input state is one of the three the sum equals the cohort's
member count. -/
theorem group_prs_partition (prs : List ValidPR) :
    ((group_prs_by_title prs).map Group.title).Nodup
    ∧ (∀ p ∈ prs, ∃ g ∈ group_prs_by_title prs, g.title = p.title)
    ∧ (∀ g ∈ group_prs_by_title prs,
        g.prs = prs.filter (fun p => p.title == g.title)
        ∧ g.open_ = countState "OPEN" g.prs
        ∧ g.closed = countState "CLOSED" g.prs
        ∧ g.merged = countState "MERGED" g.prs
        ∧ g.open_ + g.closed + g.merged =
            (g.prs.filter fun p =>
              p.state == "OPEN" || p.state == "CLOSED" || p.state == "MERGED").length
        ∧ ((∀ p ∈ prs, p.state = "OPEN" ∨ p.state = "CLOSED" ∨ p.state = "MERGED") →
            g.open_ + g.closed + g.merged = g.prs.length)) := by
  refine ⟨grouped_titles_nodup prs, ?_, ?_⟩
  · intro p hp
    have hany : (prs.any fun q => q.title == p.title) = true :=
      List.any_eq_true.mpr ⟨p, hp, by simp⟩
    have hf := findTitle_grouped prs p.title
    rw [if_pos hany] at hf
    exact ⟨canonGroup prs p.title, List.mem_of_find?_eq_some hf, rfl⟩
  · intro g hg
    have hf := mem_findTitle _ (grouped_titles_nodup prs) g hg
    rw [findTitle_grouped] at hf
    by_cases hany : (prs.any fun p => p.title == g.title) = true
    · rw [if_pos hany] at hf
      rcases g with ⟨t, l, o, cl, mg⟩
      simp only [Option.some.injEq] at hf
      have hfl : l = prs.filter (fun p => p.title == t) := (congrArg Group.prs hf).symm
      have hfo : o = countState "OPEN" (prs.filter fun p => p.title == t) :=
        (congrArg Group.open_ hf).symm
      have hfc : cl = countState "CLOSED" (prs.filter fun p => p.title == t) :=
        (congrArg Group.closed hf).symm
      have hfm : mg = countState "MERGED" (prs.filter fun p => p.title == t) :=
        (congrArg Group.merged hf).symm
      refine ⟨by simpa using hfl, ?_, ?_, ?_, ?_, ?_⟩
      · simpa [hfl] using hfo
      · simpa [hfl] using hfc
      · simpa [hfl] using hfm
      · rw [hfo, hfc, hfm]
        simp only [hfl]
        exact countState_trio _
      · intro hall
        rw [hfo, hfc, hfm]
        simp only [hfl]
        rw [countState_trio]
        congr 1
        rw [List.filter_eq_self]
        intro p hp
        have hpm : p ∈ prs := (List.mem_filter.mp hp).1
        rcases hall p hpm with h1 | h1 | h1 <;> simp [h1]
    · rw [if_neg hany] at hf
      simp at hf


/-- Witness for C4 at a concrete two-record input: the first cohort's
members are exactly the records titled "A", and its counters sum to its
member count. -/
theorem group_prs_partition_witness :
    (⟨"A", [⟨"A", "o/r", PyVal.pyint 1, "OPEN", "c", "u", Option.none⟩], 1, 0, 0⟩ : Group).prs =
      ([⟨"A", "o/r", PyVal.pyint 1, "OPEN", "c", "u", Option.none⟩,
        ⟨"B", "o/r", PyVal.pyint 2, "MERGED", "c", "u", Option.none⟩] :
        List ValidPR).filter (fun p => p.title == "A")
    ∧ (1 : Nat) + 0 + 0 =
        (⟨"A", [⟨"A", "o/r", PyVal.pyint 1, "OPEN", "c", "u", Option.none⟩], 1, 0, 0⟩ :
          Group).prs.length :=
  ⟨((group_prs_partition
      [⟨"A", "o/r", PyVal.pyint 1, "OPEN", "c", "u", Option.none⟩,
       ⟨"B", "o/r", PyVal.pyint 2, "MERGED", "c", "u", Option.none⟩]).2.2
      ⟨"A", [⟨"A", "o/r", PyVal.pyint 1, "OPEN", "c", "u", Option.none⟩], 1, 0, 0⟩
      (by decide)).1,
   ((group_prs_partition
      [⟨"A", "o/r", PyVal.pyint 1, "OPEN", "c", "u", Option.none⟩,
       ⟨"B", "o/r", PyVal.pyint 2, "MERGED", "c", "u", Option.none⟩]).2.2
      ⟨"A", [⟨"A", "o/r", PyVal.pyint 1, "OPEN", "c", "u", Option.none⟩], 1, 0, 0⟩
      (by decide)).2.2.2.2.2 (by decide)⟩

/-- C5: the failing subset contains exactly the records with state OPEN
and `checkStatus` in the vocabulary `{ERROR, FAILURE}`, each emitted
with the record's title, its `checkStatus`, and the synthesized URL
`https://github.com/<repository>/pull/<number>`; and the single-record
scenario yields one cohort "A" with counts (1, 0, 0) and one failing
entry with URL `https://github.com/o/r/pull/1` (under the hypothesis
that the two scenario timestamps parse, which is what
`datetime.fromisoformat` does on them). -/
theorem failing_subset_extraction (parseErr : String → Option String)
    (hc : parseErr "2024-01-01T00:00:00+00:00" = Option.none)
    (hu : parseErr "2024-01-02T00:00:00+00:00" = Option.none) :
    (∀ (valid : List ValidPR) (e : FailingEntry),
      e ∈ failing_from valid ↔
        ∃ pr ∈ valid, pr.state = "OPEN"
          ∧ (pr.checkStatus = some "ERROR" ∨ pr.checkStatus = some "FAILURE")
          ∧ e = ⟨pr.title,
                 "https://github.com/" ++ pr.repository ++ "/pull/" ++ pyStrOf pr.number,
                 pr.checkStatus⟩)
    ∧ process_consolidated_data parseErr [recA] =
        ⟨some [⟨"A", [⟨"A", "o/r", PyVal.pyint 1, "OPEN", "2024-01-01T00:00:00Z",
                       "2024-01-02T00:00:00Z", some "FAILURE"⟩], 1, 0, 0⟩],
         some [⟨"A", "https://github.com/o/r/pull/1", some "FAILURE"⟩], []⟩ := by
  constructor
  · intro valid e
    simp only [failing_from, mkFailingEntry, List.mem_map, List.mem_filter]
    constructor
    · rintro ⟨pr, ⟨hm, hcond⟩, rfl⟩
      simp only [Bool.and_eq_true, Bool.or_eq_true, beq_iff_eq] at hcond
      exact ⟨pr, hm, hcond.1, hcond.2, rfl⟩
    · rintro ⟨pr, hm, hst, hck, rfl⟩
      refine ⟨pr, ⟨hm, ?_⟩, rfl⟩
      simp only [Bool.and_eq_true, Bool.or_eq_true, beq_iff_eq]
      exact ⟨hst, hck⟩
  · have hval : validate_pr_data parseErr recA = (true, Option.none) := by
      have h0 : validate_pr_data parseErr recA =
          dateCheckResult (parseErr "2024-01-01T00:00:00+00:00")
            (parseErr "2024-01-02T00:00:00+00:00") := rfl
      rw [h0, hc, hu]
      rfl
    have hstep : validateStep parseErr ([], []) (0, recA) = ([], [recA]) := by
      simp [validateStep, hval]
    simp only [process_consolidated_data, List.enum]
    simp only [List.enumFrom, List.foldl_cons, List.foldl_nil, hstep]
    decide

/-- Witness for C5: the scenario evaluated with a parser accepting every
timestamp. -/
theorem failing_subset_extraction_witness :
    process_consolidated_data (fun _ => Option.none) [recA] =
      ⟨some [⟨"A", [⟨"A", "o/r", PyVal.pyint 1, "OPEN", "2024-01-01T00:00:00Z",
                     "2024-01-02T00:00:00Z", some "FAILURE"⟩], 1, 0, 0⟩],
       some [⟨"A", "https://github.com/o/r/pull/1", some "FAILURE"⟩], []⟩ :=
  (failing_subset_extraction (fun _ => Option.none) rfl rfl).2

/-- C6 counterexample: the two values of the second CLI argument parse to
different booleans, yet the failing subset computed by the driver is
identical (and non-empty, with `FAILURE` qualifying under both), so the
flag does not determine which `checkStatus` values qualify. -/
theorem failing_flag_counterexample :
    parse_failing_flag "true" ≠ parse_failing_flag "false"
    ∧ main_failing_prs (fun _ => Option.none) "true" [recA] =
        main_failing_prs (fun _ => Option.none) "false" [recA]
    ∧ main_failing_prs (fun _ => Option.none) "true" [recA] =
        some [⟨"A", "https://github.com/o/r/pull/1", some "FAILURE"⟩] :=
  ⟨by decide, rfl, by decide⟩

/-- C6 amended: the second positional CLI argument is parsed as a boolean
(`FAILING_PRS_ERROR`) but never consulted; for every input data set the
failing subset — and hence the set of qualifying `checkStatus` values,
fixed at `{ERROR, FAILURE}` — is the same whatever the flag. -/
theorem failing_flag_has_no_effect (parseErr : String → Option String) (a b : String)
    (prs : List RawRecord) :
    main_failing_prs parseErr a prs = main_failing_prs parseErr b prs := rfl

/-- C7 counterexample: two distinct 105-character titles sharing a
95-character common first part, both longer than 100 after stripping and
space replacement, sanitize to the *same* name under a hash that sends
both titles to the same value — and the source places no constraint on
Python's process-salted string hash that would rule collisions out (with
infinitely many titles and at most eight suffix characters, no hash
avoids them). -/
theorem sanitize_collision_counterexample :
    (⟨List.replicate 95 'a' ++ List.replicate 10 'b'⟩ : String) ≠
      ⟨List.replicate 95 'a' ++ List.replicate 10 'c'⟩
    ∧ (⟨List.replicate 95 'a' ++ List.replicate 10 'b'⟩ : String).data.take 95 =
        (⟨List.replicate 95 'a' ++ List.replicate 10 'c'⟩ : String).data.take 95
    ∧ 100 < (pyStrReplace
        ⟨(⟨List.replicate 95 'a' ++ List.replicate 10 'b'⟩ : String).data.filter
          (fun ch => (strippedChars.contains ch) = false)⟩ " " "_").data.length
    ∧ 100 < (pyStrReplace
        ⟨(⟨List.replicate 95 'a' ++ List.replicate 10 'c'⟩ : String).data.filter
          (fun ch => (strippedChars.contains ch) = false)⟩ " " "_").data.length
    ∧ sanitize_sheet_name (fun _ => 0) ⟨List.replicate 95 'a' ++ List.replicate 10 'b'⟩ 100 =
        sanitize_sheet_name (fun _ => 0) ⟨List.replicate 95 'a' ++ List.replicate 10 'c'⟩ 100 :=
  ⟨by decide, by decide, by decide, by decide, by decide⟩

/-- C7 amended: two titles whose stripped/underscored forms both exceed
the maximum length sanitize to different names whenever their
hash-derived suffixes differ — the suffix is the only disambiguator the
code has, so this is the collision avoidance the source actually
provides. -/
theorem sanitize_long_titles_distinct (h : String → Int) (t1 t2 : String)
    (h1 : 100 < (pyStrReplace ⟨t1.data.filter
      (fun ch => (strippedChars.contains ch) = false)⟩ " " "_").data.length)
    (h2 : 100 < (pyStrReplace ⟨t2.data.filter
      (fun ch => (strippedChars.contains ch) = false)⟩ " " "_").data.length)
    (hsuf : hash_suffix_of h t1 ≠ hash_suffix_of h t2) :
    sanitize_sheet_name h t1 100 ≠ sanitize_sheet_name h t2 100 := by
  intro he
  unfold sanitize_sheet_name at he
  rw [if_pos h1, if_pos h2] at he
  have hdata := congrArg String.data he
  simp only at hdata
  have hlen : ((pyStrReplace ⟨t1.data.filter
      (fun ch => (strippedChars.contains ch) = false)⟩ " " "_").data.take (100 - 9)).length =
      ((pyStrReplace ⟨t2.data.filter
      (fun ch => (strippedChars.contains ch) = false)⟩ " " "_").data.take (100 - 9)).length := by
    rw [List.length_take, List.length_take]
    omega
  have hsplit := List.append_inj hdata hlen
  have hcons := hsplit.2
  injection hcons with _ hsufeq
  exact hsuf hsufeq

/-- Witness for the amended C7: a length-based hash separates a
101-character and a 102-character title. -/
theorem sanitize_long_titles_distinct_witness :
    sanitize_sheet_name (fun t => (t.data.length : Int)) ⟨List.replicate 101 'a'⟩ 100 ≠
      sanitize_sheet_name (fun t => (t.data.length : Int)) ⟨List.replicate 102 'a'⟩ 100 :=
  sanitize_long_titles_distinct (fun t => (t.data.length : Int))
    ⟨List.replicate 101 'a'⟩ ⟨List.replicate 102 'a'⟩ (by decide) (by decide) (by decide)

/-- C8: within one run (one fixed hash function), sanitization is
deterministic: the names computed for the cohorts in the summary loop
coincide with those computed again in the per-title upload loop, and the
same title always sanitizes to the same name. -/
theorem sanitize_deterministic_within_run (h : String → Int) (groups : List Group)
    (t1 t2 : String) (heq : t1 = t2) :
    summary_sheet_names h groups = per_title_sheet_names h groups
    ∧ sanitize_sheet_name h t1 100 = sanitize_sheet_name h t2 100 :=
  ⟨rfl, by rw [heq]⟩

/-- Witness for C8 on a one-cohort run and a title long enough to take
the hash-suffix path. -/
theorem sanitize_deterministic_within_run_witness :
    summary_sheet_names (fun _ => 0) [⟨"A", [], 0, 0, 0⟩] =
      per_title_sheet_names (fun _ => 0) [⟨"A", [], 0, 0, 0⟩]
    ∧ sanitize_sheet_name (fun _ => 0) ⟨List.replicate 101 'a'⟩ 100 =
        sanitize_sheet_name (fun _ => 0) ⟨List.replicate 101 'a'⟩ 100 :=
  sanitize_deterministic_within_run (fun _ => 0) [⟨"A", [], 0, 0, 0⟩]
    ⟨List.replicate 101 'a'⟩ ⟨List.replicate 101 'a'⟩ rfl

/-- The field loop succeeds exactly when every schema field is present
and well-typed. -/
theorem checkFields_none_iff (pr : RawRecord) :
    ∀ specs : List (String × (PyVal → Bool) × String),
      (checkFields pr specs = Option.none ↔
        (specs.all fun s => fieldOk pr s.1 s.2.1) = true) := by
  intro specs
  induction specs with
  | nil => simp [checkFields]
  | cons s rest ih =>
    rcases s with ⟨f, ty, d⟩
    rcases hd : dictGet pr f with _ | v
    · simp [checkFields, fieldOk, hd]
    · by_cases hty : ty v = true
      · simp [checkFields, fieldOk, hd, hty, ih]
      · simp [checkFields, fieldOk, hd, hty]

/-- C9: a record whose earlier schema fields are fine but whose `state`
is absent is rejected with the missing-field reason (the missing check
runs before any type check of that field); a fully present, well-typed
record with `state = "APPROVED"` is rejected with the invalid-state
reason; and the union-typed `number` field is accepted when either `int`
or `str` matches — validation then proceeds to the remaining fields
exactly as if `number` were fine — and is rejected with the type-error
reason only when neither matches. -/
theorem validate_rejection_reasons (parseErr : String → Option String) (pr : RawRecord) :
    (fieldOk pr "title" isStr = true → fieldOk pr "repository" isStr = true →
     fieldOk pr "number" (fun v => isInt v || isStr v) = true →
     dictGet pr "state" = Option.none →
     validate_pr_data parseErr pr = (false, some "Missing required field: state"))
    ∧ (allFieldsOk pr = true → dictGet pr "state" = some (PyVal.pystr "APPROVED") →
       validate_pr_data parseErr pr = (false, some "Invalid state value: APPROVED"))
    ∧ (∀ v, fieldOk pr "title" isStr = true → fieldOk pr "repository" isStr = true →
       dictGet pr "number" = some v → (isInt v || isStr v) = true →
       checkFields pr required_fields = checkFields pr (required_fields.drop 3))
    ∧ (∀ v, fieldOk pr "title" isStr = true → fieldOk pr "repository" isStr = true →
       dictGet pr "number" = some v → (isInt v || isStr v) = false →
       validate_pr_data parseErr pr =
         (false, some ("Invalid type for number: expected (<class 'int'>, <class 'str'>), got "
           ++ typeName v))) := by
  refine ⟨?_, ?_, ?_, ?_⟩
  · intro hT hR hN hS
    rcases hdT : dictGet pr "title" with _ | vT
    · simp [fieldOk, hdT] at hT
    rcases hdR : dictGet pr "repository" with _ | vR
    · simp [fieldOk, hdR] at hR
    rcases hdN : dictGet pr "number" with _ | vN
    · simp [fieldOk, hdN] at hN
    simp only [fieldOk, hdT] at hT
    simp only [fieldOk, hdR] at hR
    simp only [fieldOk, hdN] at hN
    simp [validate_pr_data, checkFields, required_fields, hdT, hdR, hdN, hT, hR, hN, hS]
  · intro hall hS
    have hnone : checkFields pr required_fields = Option.none :=
      (checkFields_none_iff pr required_fields).mpr hall
    simp [validate_pr_data, hnone, pyGet, hS, pyStrOf]
  · intro v hT hR hdN hv
    rcases hdT : dictGet pr "title" with _ | vT
    · simp [fieldOk, hdT] at hT
    rcases hdR : dictGet pr "repository" with _ | vR
    · simp [fieldOk, hdR] at hR
    simp only [fieldOk, hdT] at hT
    simp only [fieldOk, hdR] at hR
    simp [checkFields, required_fields, hdT, hdR, hdN, hT, hR, hv]
  · intro v hT hR hdN hv
    rcases hdT : dictGet pr "title" with _ | vT
    · simp [fieldOk, hdT] at hT
    rcases hdR : dictGet pr "repository" with _ | vR
    · simp [fieldOk, hdR] at hR
    simp only [fieldOk, hdT] at hT
    simp only [fieldOk, hdR] at hR
    simp [validate_pr_data, checkFields, required_fields, hdT, hdR, hdN, hT, hR, hv]

/-- C10: on empty or non-sequence data `update_sheet_with_retry` fails
with the `ValueError` after exactly one invocation and no backoff sleep,
but the worksheet has already been cleared — so when the sheet held rows
before the call, its state has changed even though the call failed (the
error path is not atomic). -/
theorem update_clears_before_validating (jitters : Nat → ℚ) (st : SheetState) (data : SheetData)
    (hbad : invalidSheetData data = true) :
    update_sheet_with_retry jitters st data =
      ⟨⟨[]⟩, Except.error (PyError.valueError
        "Invalid data format. Expected non-empty list or tuple."), 0, 1⟩
    ∧ (st.rows ≠ [] → (update_sheet_with_retry jitters st data).state ≠ st) := by
  have h1 : update_sheet_with_retry jitters st data =
      ⟨⟨[]⟩, Except.error (PyError.valueError
        "Invalid data format. Expected non-empty list or tuple."), 0, 1⟩ := by
    cases data with
    | items rows =>
      have hrows : rows.isEmpty = true := by simpa [invalidSheetData] using hbad
      unfold update_sheet_with_retry retry_with_backoff
      simp [retry_aux, update_once, hrows]
    | nonSeq =>
      unfold update_sheet_with_retry retry_with_backoff
      simp [retry_aux, update_once]
  refine ⟨h1, ?_⟩
  intro hne hcon
  rw [h1] at hcon
  apply hne
  rw [← hcon]

/-- Witness for C9: a record lacking `state` gets the missing-field
reason; a record with `state = "APPROVED"` gets the invalid-state
reason. -/
theorem validate_rejection_reasons_witness :
    validate_pr_data (fun _ => Option.none)
        [("title", PyVal.pystr "T"), ("repository", PyVal.pystr "o/r"),
         ("number", PyVal.pyint 1)] =
      (false, some "Missing required field: state")
    ∧ validate_pr_data (fun _ => Option.none)
        [("title", PyVal.pystr "T"), ("repository", PyVal.pystr "o/r"),
         ("number", PyVal.pyint 1), ("state", PyVal.pystr "APPROVED"),
         ("createdAt", PyVal.pystr "2024-01-01T00:00:00Z"),
         ("updatedAt", PyVal.pystr "2024-01-02T00:00:00Z"),
         ("checkStatus", PyVal.pynone)] =
      (false, some "Invalid state value: APPROVED") :=
  ⟨(validate_rejection_reasons (fun _ => Option.none)
      [("title", PyVal.pystr "T"), ("repository", PyVal.pystr "o/r"),
       ("number", PyVal.pyint 1)]).1 (by decide) (by decide) (by decide) rfl,
   (validate_rejection_reasons (fun _ => Option.none)
      [("title", PyVal.pystr "T"), ("repository", PyVal.pystr "o/r"),
       ("number", PyVal.pyint 1), ("state", PyVal.pystr "APPROVED"),
       ("createdAt", PyVal.pystr "2024-01-01T00:00:00Z"),
       ("updatedAt", PyVal.pystr "2024-01-02T00:00:00Z"),
       ("checkStatus", PyVal.pynone)]).2.1 (by decide) rfl⟩

/-- Witness for C10: updating a sheet holding one row with an empty list
raises the `ValueError` after one invocation and leaves the sheet
cleared — a different state than before the call. -/
theorem update_clears_before_validating_witness :
    update_sheet_with_retry (fun _ => 0) ⟨[[PyVal.pystr "old"]]⟩ (SheetData.items []) =
      ⟨⟨[]⟩, Except.error (PyError.valueError
        "Invalid data format. Expected non-empty list or tuple."), 0, 1⟩
    ∧ (update_sheet_with_retry (fun _ => 0) ⟨[[PyVal.pystr "old"]]⟩
        (SheetData.items [])).state ≠ ⟨[[PyVal.pystr "old"]]⟩ :=
  ⟨(update_clears_before_validating (fun _ => 0) ⟨[[PyVal.pystr "old"]]⟩
      (SheetData.items []) (by decide)).1,
   (update_clears_before_validating (fun _ => 0) ⟨[[PyVal.pystr "old"]]⟩
      (SheetData.items []) (by decide)).2 (by decide)⟩

end UploadToSheets

